import Mathlib

/-! Verification of the attendance aggregation and alert-escalation engine in
    backend.py. CSV tables are modelled as lists of records. Numeric CSV
    fields are modelled as rationals (exact arithmetic), the yes/empty string
    flags as Bool, counts as Nat. The SMTP transport of send_email is an
    external effect; its per-call outcome is modelled as an oracle function
    inside a NotifyEnv. The SMS stub is pure and modelled directly. -/

/-- Record of students.csv: student_id, name, programme, part, course_code,
    group, phone, email. -/
structure Student where
  student_id : String
  name : String
  programme : String
  part : String
  course_code : String
  group : String
  phone : String
  email : String
deriving DecidableEq, Repr

/-- Record of attendance.csv: student_id, name, course_code, group, week,
    class_label, hours, date. The hours field is parsed with float in the
    source; it is modelled as a rational. -/
structure AttendanceEvent where
  student_id : String
  name : String
  course_code : String
  group : String
  week : String
  class_label : String
  hours : ℚ
  date : String
deriving DecidableEq, Repr

/-- Record of alerts.csv: student_id, name, course_code, group, percent,
    count, sent7, sent10, sent15. The sentN columns hold the string yes or
    the empty string in the source and are modelled as Bool. -/
structure AlertRec where
  student_id : String
  name : String
  course_code : String
  group : String
  percent : ℚ
  count : ℕ
  sent7 : Bool
  sent10 : Bool
  sent15 : Bool
deriving DecidableEq, Repr

/-- One row of the result of compute_percentages in backend.py. -/
structure Row where
  student_id : String
  name : String
  hours_missed : ℚ
  percent : ℚ
  thresholds : String
  phone : String
  email : String
deriving DecidableEq, Repr

/-- Per-student channel outcome of one iteration of the send_alerts loop. -/
structure Outcome where
  student_id : String
  ok_email : Bool
  ok_sms : Bool
deriving DecidableEq, Repr

/-- Oracle for the outcomes of the two notification channels. emailOk gives
    the success flag returned by send_email for a given recipient, subject
    and body; smsOk the success flag of the SMS channel for a given phone
    number and text. -/
structure NotifyEnv where
  emailOk : String → String → String → Bool
  smsOk : String → String → Bool

/-- Result of one run of the send_alerts handler: the saved alerts.csv
    contents, the sent_count reported in the flash message, and the
    per-student channel outcomes in processing order. -/
structure SendAlertsResult where
  alerts : List AlertRec
  sent_count : ℕ
  outcomes : List Outcome
deriving DecidableEq, Repr

/-- Dictionary update step of sum_hours_missed: missed[sid] =
    missed.get(sid, 0.0) + hrs, on an association list. -/
def updAdd (m : List (String × ℚ)) (k : String) (v : ℚ) : List (String × ℚ) :=
  match m with
  | [] => [(k, v)]
  | (k0, v0) :: rest => if k0 == k then (k0, v0 + v) :: rest else (k0, v0) :: updAdd rest k v

/-- sum_hours_missed from backend.py: sums hours per student_id over the
    attendance events matching the given course_code and group. -/
def sum_hours_missed (attendance : List AttendanceEvent) (course_code group : String) :
    List (String × ℚ) :=
  attendance.foldl
    (fun missed a =>
      if a.course_code == course_code && a.group == group then
        updAdd missed a.student_id a.hours
      else missed)
    []

/-- Rounding of a rational to the nearest integer with ties to even: the
    behaviour of the Python builtin round on exactly representable values. -/
def roundHalfEvenInt (x : ℚ) : ℤ :=
  if x - ⌊x⌋ < 1 / 2 then ⌊x⌋
  else if 1 / 2 < x - ⌊x⌋ then ⌊x⌋ + 1
  else if ⌊x⌋ % 2 = 0 then ⌊x⌋ else ⌊x⌋ + 1

/-- Rounding to two decimal places as performed by round(value, 2) in
    compute_percentages. -/
def pyRound2 (x : ℚ) : ℚ := (roundHalfEvenInt (x * 100) : ℚ) / 100

/-- Threshold labels collected by compute_percentages: the label t% for each
    t in [7, 10, 15] with percent >= t, in ascending order. -/
def tier_labels (percent : ℚ) : List String :=
  ([7, 10, 15] : List ℕ).filterMap
    (fun t => if (t : ℚ) ≤ percent then some (toString t ++ "%") else none)

/-- compute_percentages from backend.py: one row per student record matching
    the course_code and group, with aggregated missed hours, the rounded
    percentage (0 when total_hours is not positive), and threshold labels. -/
def compute_percentages (students : List Student) (attendance : List AttendanceEvent)
    (course_code group : String) (total_hours : ℚ) : List Row :=
  let missed := sum_hours_missed attendance course_code group
  (students.filter (fun s => s.course_code == course_code && s.group == group)).map
    (fun s =>
      let hours_missed := (List.lookup s.student_id missed).getD 0
      let percent := if 0 < total_hours then pyRound2 (hours_missed / total_hours * 100) else 0
      let labels := tier_labels percent
      { student_id := s.student_id
        name := s.name
        hours_missed := hours_missed
        percent := percent
        thresholds := if labels = [] then "-" else String.intercalate ", " labels
        phone := s.phone
        email := s.email })

/-- First alerts.csv record matching the key (student_id, course_code,
    group), as searched by the loop in upsert_alert. -/
def findAlert (alerts : List AlertRec) (student_id course_code group : String) :
    Option AlertRec :=
  alerts.find? (fun a =>
    a.student_id == student_id && a.course_code == course_code && a.group == group)

/-- upsert_alert from backend.py: update the first record with the given key
    in place (overwrite percent, increment count, set hit flags, never clear
    them), or append a fresh record with count 1 when no record matches. -/
def upsert_alert (alerts : List AlertRec) (student_id name course_code group : String)
    (percent : ℚ) (hit7 hit10 hit15 : Bool) : List AlertRec :=
  match alerts with
  | [] => [⟨student_id, name, course_code, group, percent, 1, hit7, hit10, hit15⟩]
  | a :: rest =>
    if a.student_id == student_id && a.course_code == course_code && a.group == group then
      { a with percent := percent, count := a.count + 1,
               sent7 := a.sent7 || hit7, sent10 := a.sent10 || hit10,
               sent15 := a.sent15 || hit15 } :: rest
    else
      a :: upsert_alert rest student_id name course_code group percent hit7 hit10 hit15

/-- Effect of upsert_alert on the record stored for the upserted key, as a
    function of the previously stored record (if any). -/
def reconcile (prior : Option AlertRec) (student_id name course_code group : String)
    (percent : ℚ) (hit7 hit10 hit15 : Bool) : AlertRec :=
  match prior with
  | some a => { a with percent := percent, count := a.count + 1,
                       sent7 := a.sent7 || hit7, sent10 := a.sent10 || hit10,
                       sent15 := a.sent15 || hit15 }
  | none => ⟨student_id, name, course_code, group, percent, 1, hit7, hit10, hit15⟩

/-- build_email_text from backend.py: alert body, with the exam-bar note
    exactly when percent >= 20. -/
def build_email_text (name course_code : String) (percent : ℚ) : String :=
  let block_note :=
    if (20 : ℚ) ≤ percent then
      "\nNote: A student with >=20% absenteeism may be barred from the final exam."
    else ""
  "Attendance Alert:\n\nPlease be informed that " ++ name ++ " has " ++ toString percent ++
    "% class absenteeism (course " ++ course_code ++
    ").\nKindly contact your lecturer as soon as possible." ++ block_note ++
    "\n\nThis is an automated message from AAMAS."

/-- Subject line built in the send_alerts loop. -/
def notify_subject (course_code : String) : String :=
  "Attendance Alert (" ++ course_code ++ ")"

/-- SMS text built in the send_alerts loop. -/
def sms_text (name : String) (percent : ℚ) (course_code : String) : String :=
  name ++ " has " ++ toString percent ++ "% absenteeism for " ++ course_code ++
    ". Please advise."

/-- send_sms_stub from backend.py: log-only stub, always returns success. -/
def send_sms_stub (phone text : String) : Bool × String :=
  let _ := phone
  let _ := text
  (true, "SMS logged")

/-- Success of the send_email call made for a row in the send_alerts loop. -/
def emailOkFor (env : NotifyEnv) (course_code : String) (r : Row) : Bool :=
  env.emailOk r.email (notify_subject course_code) (build_email_text r.name course_code r.percent)

/-- Success of the SMS channel for a row in the send_alerts loop. -/
def smsOkFor (env : NotifyEnv) (course_code : String) (r : Row) : Bool :=
  env.smsOk r.phone (sms_text r.name r.percent course_code)

/-- ok_email or ok_sms for a row: the processed condition of send_alerts. -/
def channelOk (env : NotifyEnv) (course_code : String) (r : Row) : Bool :=
  emailOkFor env course_code r || smsOkFor env course_code r

/-- Loop body of send_alerts over the targeted rows: notify both channels,
    and when at least one succeeds, upsert the alert state with the hit7,
    hit10, hit15 flags computed from the row percent and count the student
    as processed. -/
def processTargets (env : NotifyEnv) (course_code group : String) :
    List AlertRec → List Row → List AlertRec × ℕ × List Outcome
  | alerts, [] => (alerts, 0, [])
  | alerts, r :: rest =>
    let okE := emailOkFor env course_code r
    let okS := smsOkFor env course_code r
    let alerts1 :=
      if okE || okS then
        upsert_alert alerts r.student_id r.name course_code group r.percent
          (decide ((7 : ℚ) ≤ r.percent)) (decide ((10 : ℚ) ≤ r.percent))
          (decide ((15 : ℚ) ≤ r.percent))
      else alerts
    let tail := processTargets env course_code group alerts1 rest
    (tail.1, (if okE || okS then 1 else 0) + tail.2.1, ⟨r.student_id, okE, okS⟩ :: tail.2.2)

/-- Rows targeted by send_alerts: the computed rows whose student_id occurs
    in the selected list of the form. -/
def targets (students : List Student) (attendance : List AttendanceEvent)
    (course_code group : String) (total_hours : ℚ) (selected : List String) : List Row :=
  (compute_percentages students attendance course_code group total_hours).filter
    (fun r => selected.contains r.student_id)

/-- send_alerts from backend.py: process every targeted row and return the
    final alert state, the processed count and the channel outcomes. -/
def send_alerts (env : NotifyEnv) (students : List Student)
    (attendance : List AttendanceEvent) (alerts : List AlertRec)
    (course_code group : String) (total_hours : ℚ) (selected : List String) :
    SendAlertsResult :=
  let p := processTargets env course_code group alerts
    (targets students attendance course_code group total_hours selected)
  ⟨p.1, p.2.1, p.2.2⟩

/-- Header required of an uploaded roster file by upload_students. -/
def required_fields : List String :=
  ["student_id", "name", "programme", "part", "course_code", "group", "phone", "email"]

/-- upload_students from backend.py (POST branch): replace the students
    table with the uploaded rows when the uploaded header equals
    required_fields exactly, otherwise reject and keep the table; the Bool
    reports acceptance. -/
def upload_students (current : List Student) (header : List String)
    (uploaded : List Student) : List Student × Bool :=
  if header = required_fields then (uploaded, true) else (current, false)

/-- Fixture: a student enrolled in course CS101 group A. -/
def studentA : Student :=
  ⟨"S1", "Alice", "BSC", "1", "CS101", "A", "0111", "alice@example.com"⟩

/-- Fixture: a second student enrolled in the same course and group. -/
def studentB : Student :=
  ⟨"S2", "Bob", "BSC", "1", "CS101", "A", "0222", "bob@example.com"⟩

/-- Fixture: a recorded absence of 3 hours for studentA. -/
def eventA3 : AttendanceEvent :=
  ⟨"S1", "Alice", "CS101", "A", "1", "Lecture", 3, "2025-01-01"⟩

/-- Fixture: a recorded absence of 1 hour for studentA. -/
def eventA1 : AttendanceEvent :=
  ⟨"S1", "Alice", "CS101", "A", "1", "Lecture", 1, "2025-01-01"⟩

/-- Fixture: a recorded absence of 41 hours for studentA. -/
def eventA41 : AttendanceEvent :=
  ⟨"S1", "Alice", "CS101", "A", "1", "Lecture", 41, "2025-01-01"⟩

/-- Fixture: alert record for studentA with sent7 already set. -/
def alertA7 : AlertRec := ⟨"S1", "Alice", "CS101", "A", 15 / 2, 1, true, false, false⟩

/-- Fixture: notification environment in which both channels succeed. -/
def envAll : NotifyEnv := ⟨fun _ _ _ => true, fun _ _ => true⟩

/-- Fixture: notification environment in which both channels fail. -/
def envNone : NotifyEnv := ⟨fun _ _ _ => false, fun _ _ => false⟩

/-- Fixture: failing email channel combined with the SMS stub of the
    source, whose success flag is always true. -/
def envStub : NotifyEnv := ⟨fun _ _ _ => false, fun p t => (send_sms_stub p t).1⟩

/-- Modelled from the spec: rounding to two decimal places with half-up tie
    breaking, which section 8 of the spec claims is the rounding used for
    percent. Present only for comparison with pyRound2, the rounding the
    source actually performs. -/
def specRoundHalfUp2 (x : ℚ) : ℚ := (⌊x * 100 + 1 / 2⌋ : ℚ) / 100

theorem roundHalfEvenInt_int (n : ℤ) : roundHalfEvenInt (n : ℚ) = n := by
  unfold roundHalfEvenInt
  rw [Int.floor_intCast]
  norm_num

theorem roundHalfEvenInt_half (n : ℤ) :
    roundHalfEvenInt ((n : ℚ) + 1 / 2) = if n % 2 = 0 then n else n + 1 := by
  unfold roundHalfEvenInt
  have hf : ⌊(n : ℚ) + 1 / 2⌋ = n := by
    rw [Int.floor_eq_iff]
    constructor <;> norm_num
  rw [hf]
  have h2 : (n : ℚ) + 1 / 2 - n = 1 / 2 := by ring
  rw [h2]
  norm_num

theorem pyRound2_int (x : ℚ) (n : ℤ) (hx : x * 100 = (n : ℚ)) :
    pyRound2 x = (n : ℚ) / 100 := by
  unfold pyRound2
  rw [hx, roundHalfEvenInt_int]

theorem pyRound2_half (x : ℚ) (n : ℤ) (hx : x * 100 = (n : ℚ) + 1 / 2) :
    pyRound2 x = ((if n % 2 = 0 then n else n + 1 : ℤ) : ℚ) / 100 := by
  unfold pyRound2
  rw [hx, roundHalfEvenInt_half]

theorem pyRound2_zero : pyRound2 0 = 0 := by
  have := pyRound2_int 0 0 (by norm_num)
  simpa using this

/-- Bridging lemma: the Bool key test used in findAlert and upsert_alert
    holds exactly when the three key fields agree propositionally. -/
theorem keyMatch_iff (a : AlertRec) (sid cc g : String) :
    (a.student_id == sid && a.course_code == cc && a.group == g) = true ↔
      (a.student_id = sid ∧ a.course_code = cc ∧ a.group = g) := by
  simp [Bool.and_eq_true, and_assoc]

theorem findAlert_cons_pos (a : AlertRec) (rest : List AlertRec) (sid cc g : String)
    (h : a.student_id = sid ∧ a.course_code = cc ∧ a.group = g) :
    findAlert (a :: rest) sid cc g = some a := by
  unfold findAlert
  rw [List.find?_cons_of_pos]
  exact (keyMatch_iff a sid cc g).mpr h

theorem findAlert_cons_neg (a : AlertRec) (rest : List AlertRec) (sid cc g : String)
    (h : ¬(a.student_id = sid ∧ a.course_code = cc ∧ a.group = g)) :
    findAlert (a :: rest) sid cc g = findAlert rest sid cc g := by
  unfold findAlert
  rw [List.find?_cons_of_neg]
  simp only [keyMatch_iff]
  simpa using h

theorem findAlert_upsert_same (alerts : List AlertRec) (sid name cc g : String) (p : ℚ)
    (h7 h10 h15 : Bool) :
    findAlert (upsert_alert alerts sid name cc g p h7 h10 h15) sid cc g =
      some (reconcile (findAlert alerts sid cc g) sid name cc g p h7 h10 h15) := by
  induction alerts with
  | nil =>
    simp [upsert_alert, findAlert, reconcile, List.find?]
  | cons a rest ih =>
    unfold upsert_alert
    by_cases h : (a.student_id == sid && a.course_code == cc && a.group == g) = true
    · rw [if_pos h]
      rw [keyMatch_iff] at h
      rw [findAlert_cons_pos _ _ _ _ _ (by simpa using h), findAlert_cons_pos _ _ _ _ _ h]
      rfl
    · rw [if_neg h]
      rw [keyMatch_iff] at h
      rw [findAlert_cons_neg _ _ _ _ _ h, findAlert_cons_neg _ _ _ _ _ h]
      exact ih

theorem findAlert_upsert_ne (alerts : List AlertRec) (sid name cc g : String) (p : ℚ)
    (h7 h10 h15 : Bool) (sid0 cc0 g0 : String)
    (hne : ¬(sid0 = sid ∧ cc0 = cc ∧ g0 = g)) :
    findAlert (upsert_alert alerts sid name cc g p h7 h10 h15) sid0 cc0 g0 =
      findAlert alerts sid0 cc0 g0 := by
  induction alerts with
  | nil =>
    unfold upsert_alert
    rw [findAlert_cons_neg _ _ _ _ _ (by rintro ⟨e1, e2, e3⟩; exact hne ⟨e1.symm, e2.symm, e3.symm⟩)]
  | cons a rest ih =>
    unfold upsert_alert
    by_cases h : (a.student_id == sid && a.course_code == cc && a.group == g) = true
    · rw [if_pos h]
      rw [keyMatch_iff] at h
      have hnk : ¬(a.student_id = sid0 ∧ a.course_code = cc0 ∧ a.group = g0) := by
        rintro ⟨e1, e2, e3⟩
        exact hne ⟨by rw [← e1, h.1], by rw [← e2, h.2.1], by rw [← e3, h.2.2]⟩
      rw [findAlert_cons_neg _ _ _ _ _ (by simpa using hnk), findAlert_cons_neg _ _ _ _ _ hnk]
    · rw [if_neg h]
      by_cases hk : a.student_id = sid0 ∧ a.course_code = cc0 ∧ a.group = g0
      · rw [findAlert_cons_pos _ _ _ _ _ hk, findAlert_cons_pos _ _ _ _ _ hk]
      · rw [findAlert_cons_neg _ _ _ _ _ hk, findAlert_cons_neg _ _ _ _ _ hk]
        exact ih

theorem processTargets_outcome_ids (env : NotifyEnv) (cc g : String) :
    ∀ (rows : List Row) (alerts : List AlertRec),
      ((processTargets env cc g alerts rows).2.2).map Outcome.student_id =
        rows.map Row.student_id := by
  intro rows
  induction rows with
  | nil => intro alerts; rfl
  | cons r rest ih =>
    intro alerts
    simp [processTargets, ih]

theorem processTargets_sent_count (env : NotifyEnv) (cc g : String) :
    ∀ (rows : List Row) (alerts : List AlertRec),
      (processTargets env cc g alerts rows).2.1 =
        (((processTargets env cc g alerts rows).2.2).filter
          (fun o => o.ok_email || o.ok_sms)).length := by
  intro rows
  induction rows with
  | nil => intro alerts; rfl
  | cons r rest ih =>
    intro alerts
    by_cases h : (emailOkFor env cc r || smsOkFor env cc r) = true
    · simp [processTargets, h, ih, List.filter_cons, Nat.add_comm]
    · simp [processTargets, h, ih, List.filter_cons]

theorem processTargets_preserve (env : NotifyEnv) (cc g sid0 cc0 g0 : String) :
    ∀ (rows : List Row) (alerts : List AlertRec),
      (∀ r ∈ rows, r.student_id = sid0 ∧ cc = cc0 ∧ g = g0 → channelOk env cc r = false) →
      findAlert (processTargets env cc g alerts rows).1 sid0 cc0 g0 =
        findAlert alerts sid0 cc0 g0 := by
  intro rows
  induction rows with
  | nil => intro alerts _; rfl
  | cons r rest ih =>
    intro alerts hall
    have hrest : ∀ r' ∈ rest, r'.student_id = sid0 ∧ cc = cc0 ∧ g = g0 →
        channelOk env cc r' = false :=
      fun r' hr' => hall r' (List.mem_cons_of_mem _ hr')
    by_cases h : (emailOkFor env cc r || smsOkFor env cc r) = true
    · have hne : ¬(r.student_id = sid0 ∧ cc = cc0 ∧ g = g0) := by
        intro hk
        have hfalse : channelOk env cc r = false := hall r (List.mem_cons_self _ _) hk
        rw [channelOk] at hfalse
        rw [hfalse] at h
        cases h
      simp only [processTargets, h, if_true]
      rw [ih _ hrest, findAlert_upsert_ne]
      rintro ⟨e1, e2, e3⟩
      exact hne ⟨e1.symm, e2.symm, e3.symm⟩
    · simp only [processTargets, h, if_false]
      exact ih _ hrest

theorem processTargets_processed (env : NotifyEnv) (cc g : String) :
    ∀ (rows : List Row) (alerts : List AlertRec) (r : Row),
      (rows.map Row.student_id).Nodup → r ∈ rows → channelOk env cc r = true →
      findAlert (processTargets env cc g alerts rows).1 r.student_id cc g =
        some (reconcile (findAlert alerts r.student_id cc g) r.student_id r.name cc g
          r.percent (decide ((7 : ℚ) ≤ r.percent)) (decide ((10 : ℚ) ≤ r.percent))
          (decide ((15 : ℚ) ≤ r.percent))) := by
  intro rows
  induction rows with
  | nil => intro alerts r _ hmem; cases hmem
  | cons r0 rest ih =>
    intro alerts r hnd hmem hok
    have hnd2 : r0.student_id ∉ rest.map Row.student_id ∧ (rest.map Row.student_id).Nodup := by
      rw [List.map_cons, List.nodup_cons] at hnd
      exact hnd
    rcases List.mem_cons.mp hmem with heq | hmem2
    · subst heq
      have hok2 : (emailOkFor env cc r || smsOkFor env cc r) = true := hok
      simp only [processTargets, hok2, if_true]
      rw [processTargets_preserve env cc g r.student_id cc g rest _ ?hno]
      · rw [findAlert_upsert_same]
      case hno =>
        intro r2 hr2 hk
        exact absurd (hk.1 ▸ List.mem_map_of_mem Row.student_id hr2) hnd2.1
    · have hne : r.student_id ≠ r0.student_id := by
        intro he
        exact hnd2.1 (he ▸ List.mem_map_of_mem Row.student_id hmem2)
      by_cases h : (emailOkFor env cc r0 || smsOkFor env cc r0) = true
      · simp only [processTargets, h, if_true]
        rw [ih _ _ hnd2.2 hmem2 hok, findAlert_upsert_ne]
        rintro ⟨e1, _, _⟩
        exact hne e1
      · simp only [processTargets, h, if_false]
        exact ih _ _ hnd2.2 hmem2 hok

theorem processTargets_all_sms_ok (env : NotifyEnv) (cc g : String)
    (hsms : ∀ p t, env.smsOk p t = true) :
    ∀ (rows : List Row) (alerts : List AlertRec),
      processTargets env cc g alerts rows =
        (rows.foldl (fun al r =>
            upsert_alert al r.student_id r.name cc g r.percent
              (decide ((7 : ℚ) ≤ r.percent)) (decide ((10 : ℚ) ≤ r.percent))
              (decide ((15 : ℚ) ≤ r.percent))) alerts,
         rows.length,
         rows.map (fun r => ⟨r.student_id, emailOkFor env cc r, true⟩)) := by
  intro rows
  induction rows with
  | nil => intro alerts; rfl
  | cons r rest ih =>
    intro alerts
    have h : smsOkFor env cc r = true := by
      rw [smsOkFor, hsms]
    simp [processTargets, h, ih, Nat.add_comm]

theorem compute_percentages_length (students : List Student) (att : List AttendanceEvent)
    (cc g : String) (t : ℚ) :
    (compute_percentages students att cc g t).length =
      (students.filter (fun s => s.course_code == cc && s.group == g)).length := by
  unfold compute_percentages
  rw [List.length_map]

theorem compute_percentages_mem (students : List Student) (att : List AttendanceEvent)
    (cc g : String) (t : ℚ) (r : Row) (hr : r ∈ compute_percentages students att cc g t) :
    r.hours_missed = (List.lookup r.student_id (sum_hours_missed att cc g)).getD 0 ∧
      r.percent = (if 0 < t then pyRound2 (r.hours_missed / t * 100) else 0) := by
  unfold compute_percentages at hr
  obtain ⟨s, _, rfl⟩ := List.mem_map.mp hr
  exact ⟨rfl, rfl⟩

theorem compute_percentages_exists (students : List Student) (att : List AttendanceEvent)
    (cc g : String) (t : ℚ) (s : Student) (hs : s ∈ students) (hcc : s.course_code = cc)
    (hg : s.group = g) :
    ∃ r ∈ compute_percentages students att cc g t,
      r.student_id = s.student_id ∧ r.name = s.name ∧ r.phone = s.phone ∧ r.email = s.email ∧
      r.hours_missed = (List.lookup s.student_id (sum_hours_missed att cc g)).getD 0 ∧
      r.percent = (if 0 < t then pyRound2 (r.hours_missed / t * 100) else 0) := by
  refine ⟨_, List.mem_map.mpr ⟨s, List.mem_filter.mpr ⟨hs, by simp [hcc, hg]⟩, rfl⟩,
    rfl, rfl, rfl, rfl, rfl, rfl⟩

theorem lookup_updAdd_isSome (m : List (String × ℚ)) (k sid : String) (v : ℚ) :
    (List.lookup sid (updAdd m k v)).isSome = true ↔
      sid = k ∨ (List.lookup sid m).isSome = true := by
  induction m with
  | nil =>
    by_cases hs : sid = k
    · simp [updAdd, List.lookup, hs]
    · have hb : (sid == k) = false := beq_eq_false_iff_ne.mpr hs
      simp [updAdd, List.lookup, hb, hs]
  | cons kv rest ih =>
    obtain ⟨k0, v0⟩ := kv
    unfold updAdd
    by_cases h : k0 = k
    · rw [if_pos (by simpa using h)]
      subst h
      by_cases hs : sid = k0
      · simp [List.lookup, hs]
      · have hb : (sid == k0) = false := beq_eq_false_iff_ne.mpr hs
        simp [List.lookup, hb, hs]
    · rw [if_neg (by simpa using h)]
      by_cases hs : sid = k0
      · simp [List.lookup, hs]
      · have hb : (sid == k0) = false := beq_eq_false_iff_ne.mpr hs
        simp only [List.lookup, hb]
        exact ih

theorem foldl_missed_isSome (cc g : String) :
    ∀ (att : List AttendanceEvent) (m : List (String × ℚ)) (sid : String),
      (List.lookup sid (att.foldl (fun missed a =>
          if a.course_code == cc && a.group == g then updAdd missed a.student_id a.hours
          else missed) m)).isSome = true ↔
        (List.lookup sid m).isSome = true ∨
          ∃ e ∈ att, e.student_id = sid ∧ e.course_code = cc ∧ e.group = g := by
  intro att
  induction att with
  | nil => simp
  | cons e rest ih =>
    intro m sid
    rw [List.foldl_cons]
    by_cases h : (e.course_code == cc && e.group == g) = true
    · rw [if_pos h, ih, lookup_updAdd_isSome]
      rw [Bool.and_eq_true, beq_iff_eq, beq_iff_eq] at h
      simp only [List.exists_mem_cons_iff]
      constructor
      · rintro ((rfl | hm) | he)
        · exact Or.inr (Or.inl ⟨rfl, h.1, h.2⟩)
        · exact Or.inl hm
        · exact Or.inr (Or.inr he)
      · rintro (hm | (⟨he1, _, _⟩ | he))
        · exact Or.inl (Or.inr hm)
        · exact Or.inl (Or.inl he1.symm)
        · exact Or.inr he
    · rw [if_neg h, ih]
      rw [Bool.and_eq_true] at h
      simp only [beq_iff_eq] at h
      simp only [List.exists_mem_cons_iff]
      constructor
      · rintro (hm | he)
        · exact Or.inl hm
        · exact Or.inr (Or.inr he)
      · rintro (hm | (⟨_, he2, he3⟩ | he))
        · exact Or.inl hm
        · exact absurd ⟨he2, he3⟩ h
        · exact Or.inr he

theorem sum_hours_missed_isSome (att : List AttendanceEvent) (cc g sid : String) :
    (List.lookup sid (sum_hours_missed att cc g)).isSome = true ↔
      ∃ e ∈ att, e.student_id = sid ∧ e.course_code = cc ∧ e.group = g := by
  unfold sum_hours_missed
  rw [foldl_missed_isSome]
  simp [List.lookup]

theorem sum_hours_missed_lookup_none (att : List AttendanceEvent) (cc g sid : String)
    (h : ∀ e ∈ att, ¬(e.student_id = sid ∧ e.course_code = cc ∧ e.group = g)) :
    List.lookup sid (sum_hours_missed att cc g) = none := by
  cases hl : List.lookup sid (sum_hours_missed att cc g) with
  | none => rfl
  | some v =>
    have hs : (List.lookup sid (sum_hours_missed att cc g)).isSome = true := by
      rw [hl]
      rfl
    rw [sum_hours_missed_isSome] at hs
    obtain ⟨e, he, h1, h2, h3⟩ := hs
    exact absurd ⟨h1, h2, h3⟩ (h e he)

theorem pyRound2_nonneg (x : ℚ) (hx : 0 ≤ x) : 0 ≤ pyRound2 x := by
  have h100 : (0 : ℚ) ≤ x * 100 := by positivity
  have h0 : (0 : ℤ) ≤ ⌊x * 100⌋ := Int.floor_nonneg.mpr h100
  unfold pyRound2 roundHalfEvenInt
  split_ifs with h1 h2 h3
  · exact div_nonneg (by exact_mod_cast h0) (by norm_num)
  · refine div_nonneg ?_ (by norm_num)
    push_cast
    have : (0 : ℚ) ≤ (⌊x * 100⌋ : ℚ) := by exact_mod_cast h0
    linarith
  · exact div_nonneg (by exact_mod_cast h0) (by norm_num)
  · refine div_nonneg ?_ (by norm_num)
    push_cast
    have : (0 : ℚ) ≤ (⌊x * 100⌋ : ℚ) := by exact_mod_cast h0
    linarith

theorem findAlert_upsert_flags_mono (alerts : List AlertRec) (sid name cc g : String)
    (p : ℚ) (h7 h10 h15 : Bool) (sid0 cc0 g0 : String) (a : AlertRec)
    (ha : findAlert alerts sid0 cc0 g0 = some a) :
    ∃ a', findAlert (upsert_alert alerts sid name cc g p h7 h10 h15) sid0 cc0 g0 = some a' ∧
      (a.sent7 = true → a'.sent7 = true) ∧ (a.sent10 = true → a'.sent10 = true) ∧
      (a.sent15 = true → a'.sent15 = true) := by
  by_cases hk : sid0 = sid ∧ cc0 = cc ∧ g0 = g
  · obtain ⟨rfl, rfl, rfl⟩ := hk
    refine ⟨reconcile (some a) sid0 name cc0 g0 p h7 h10 h15, ?_, ?_, ?_, ?_⟩
    · rw [findAlert_upsert_same, ha]
    · intro h
      simp [reconcile, h]
    · intro h
      simp [reconcile, h]
    · intro h
      simp [reconcile, h]
  · refine ⟨a, ?_, fun h => h, fun h => h, fun h => h⟩
    rw [findAlert_upsert_ne alerts sid name cc g p h7 h10 h15 sid0 cc0 g0 hk]
    exact ha

theorem processTargets_flags_mono (env : NotifyEnv) (cc g : String) :
    ∀ (rows : List Row) (alerts : List AlertRec) (sid0 cc0 g0 : String) (a : AlertRec),
      findAlert alerts sid0 cc0 g0 = some a →
      ∃ a', findAlert (processTargets env cc g alerts rows).1 sid0 cc0 g0 = some a' ∧
        (a.sent7 = true → a'.sent7 = true) ∧ (a.sent10 = true → a'.sent10 = true) ∧
        (a.sent15 = true → a'.sent15 = true) := by
  intro rows
  induction rows with
  | nil =>
    intro alerts sid0 cc0 g0 a ha
    exact ⟨a, ha, fun h => h, fun h => h, fun h => h⟩
  | cons r rest ih =>
    intro alerts sid0 cc0 g0 a ha
    by_cases h : (emailOkFor env cc r || smsOkFor env cc r) = true
    · simp only [processTargets, h, if_true]
      obtain ⟨a1, ha1, m7, m10, m15⟩ := findAlert_upsert_flags_mono alerts r.student_id r.name
        cc g r.percent (decide ((7 : ℚ) ≤ r.percent)) (decide ((10 : ℚ) ≤ r.percent))
        (decide ((15 : ℚ) ≤ r.percent)) sid0 cc0 g0 a ha
      obtain ⟨a2, ha2, n7, n10, n15⟩ := ih _ sid0 cc0 g0 a1 ha1
      exact ⟨a2, ha2, fun hh => n7 (m7 hh), fun hh => n10 (m10 hh), fun hh => n15 (m15 hh)⟩
    · simp only [processTargets, h, if_false]
      exact ih _ sid0 cc0 g0 a ha

/-- C5: for a nonpositive totalHours, compute_percentages returns percent 0
    for every student regardless of missed hours: the division by zero is
    guarded and the case is not an error. -/
theorem claim_C5_total_hours_nonpos (students : List Student) (att : List AttendanceEvent)
    (cc g : String) (t : ℚ) (ht : t ≤ 0) :
    ∀ r ∈ compute_percentages students att cc g t, r.percent = 0 := by
  intro r hr
  have h := (compute_percentages_mem students att cc g t r hr).2
  rw [if_neg (by linarith)] at h
  exact h

theorem claim_C5_witness :
    (-5 : ℚ) ≤ 0 ∧
      ∀ r ∈ compute_percentages [studentA] [eventA3] "CS101" "A" (-5), r.percent = 0 :=
  ⟨by norm_num,
   claim_C5_total_hours_nonpos [studentA] [eventA3] "CS101" "A" (-5) (by norm_num)⟩

/-- C6: the sent7, sent10, sent15 flags are ratchets: a stored record whose
    flag is set keeps that flag set after any upsert_alert reconciliation,
    whatever percent is now reported, on its own key or any other. -/
theorem claim_C6_flags_monotonic (alerts : List AlertRec) (sid name cc g : String)
    (p : ℚ) (h7 h10 h15 : Bool) (sid0 cc0 g0 : String) (a : AlertRec)
    (ha : findAlert alerts sid0 cc0 g0 = some a) :
    ∃ a', findAlert (upsert_alert alerts sid name cc g p h7 h10 h15) sid0 cc0 g0 = some a' ∧
      (a.sent7 = true → a'.sent7 = true) ∧ (a.sent10 = true → a'.sent10 = true) ∧
      (a.sent15 = true → a'.sent15 = true) :=
  findAlert_upsert_flags_mono alerts sid name cc g p h7 h10 h15 sid0 cc0 g0 a ha

theorem claim_C6_witness :
    alertA7.sent7 = true ∧
      ∃ a', findAlert (upsert_alert [alertA7] "S1" "Alice" "CS101" "A" 5 false false false)
          "S1" "CS101" "A" = some a' ∧
        (alertA7.sent7 = true → a'.sent7 = true) ∧
        (alertA7.sent10 = true → a'.sent10 = true) ∧
        (alertA7.sent15 = true → a'.sent15 = true) :=
  ⟨rfl, claim_C6_flags_monotonic [alertA7] "S1" "Alice" "CS101" "A" 5 false false false
    "S1" "CS101" "A" alertA7 rfl⟩

/-- C7: reconciling an existing key overwrites the stored percent with the
    new value (even when lower) and increments count by exactly 1, however
    many tiers are newly crossed; a key without a prior record gets a fresh
    record with count 1. -/
theorem claim_C7_percent_count (alerts : List AlertRec) (sid name cc g : String) (p : ℚ)
    (h7 h10 h15 : Bool) :
    (∀ a, findAlert alerts sid cc g = some a →
      ∃ a', findAlert (upsert_alert alerts sid name cc g p h7 h10 h15) sid cc g = some a' ∧
        a'.percent = p ∧ a'.count = a.count + 1) ∧
    (findAlert alerts sid cc g = none →
      findAlert (upsert_alert alerts sid name cc g p h7 h10 h15) sid cc g =
        some ⟨sid, name, cc, g, p, 1, h7, h10, h15⟩) := by
  constructor
  · intro a ha
    refine ⟨reconcile (some a) sid name cc g p h7 h10 h15, ?_, rfl, rfl⟩
    rw [findAlert_upsert_same, ha]
  · intro ha
    rw [findAlert_upsert_same, ha]
    rfl

theorem claim_C7_witness :
    (∃ a', findAlert (upsert_alert [alertA7] "S1" "Alice" "CS101" "A" 5 false false false)
        "S1" "CS101" "A" = some a' ∧ a'.percent = 5 ∧ a'.count = alertA7.count + 1) ∧
    findAlert (upsert_alert [] "S2" "Bob" "CS101" "A" 8 true false false) "S2" "CS101" "A" =
      some ⟨"S2", "Bob", "CS101", "A", 8, 1, true, false, false⟩ :=
  ⟨(claim_C7_percent_count [alertA7] "S1" "Alice" "CS101" "A" 5 false false false).1
      alertA7 rfl,
   (claim_C7_percent_count [] "S2" "Bob" "CS101" "A" 8 true false false).2 rfl⟩

/-- C9: roster upload replaces the students table exactly when the uploaded
    header equals the required field sequence in order and names; any other
    header is rejected and leaves the table unchanged. -/
theorem claim_C9_roster_header (current : List Student) (header : List String)
    (uploaded : List Student) :
    (header = required_fields → upload_students current header uploaded = (uploaded, true)) ∧
    (header ≠ required_fields → upload_students current header uploaded = (current, false)) := by
  constructor
  · intro h
    rw [upload_students, if_pos h]
  · intro h
    rw [upload_students, if_neg h]

theorem claim_C9_witness :
    upload_students [studentA] required_fields [studentB] = ([studentB], true) ∧
    upload_students [studentA] ["student_id", "name", "programme", "course_code", "group",
      "phone", "email"] [studentB] = ([studentA], false) :=
  ⟨(claim_C9_roster_header [studentA] required_fields [studentB]).1 rfl,
   (claim_C9_roster_header [studentA] ["student_id", "name", "programme", "course_code",
      "group", "phone", "email"] [studentB]).2 (by decide)⟩

/-- C8: compute_percentages yields one row per student record enrolled in
    the course and group; an enrolled student with no matching attendance
    events still appears, with hours_missed 0 and percent 0, while the
    aggregator map of sum_hours_missed contains a student exactly when a
    matching attendance event exists. -/
theorem claim_C8_enrollment_universe (students : List Student) (att : List AttendanceEvent)
    (cc g : String) (t : ℚ) :
    ((compute_percentages students att cc g t).length =
      (students.filter (fun s => s.course_code == cc && s.group == g)).length) ∧
    (∀ s ∈ students, s.course_code = cc → s.group = g →
      (∀ e ∈ att, ¬(e.student_id = s.student_id ∧ e.course_code = cc ∧ e.group = g)) →
      ∃ r ∈ compute_percentages students att cc g t,
        r.student_id = s.student_id ∧ r.hours_missed = 0 ∧ r.percent = 0) ∧
    (∀ sid, (List.lookup sid (sum_hours_missed att cc g)).isSome = true ↔
      ∃ e ∈ att, e.student_id = sid ∧ e.course_code = cc ∧ e.group = g) := by
  refine ⟨compute_percentages_length students att cc g t, ?_,
    fun sid => sum_hours_missed_isSome att cc g sid⟩
  intro s hs hcc hg hna
  obtain ⟨r, hrmem, hid, -, -, -, hhm, hpct⟩ :=
    compute_percentages_exists students att cc g t s hs hcc hg
  have h0 : List.lookup s.student_id (sum_hours_missed att cc g) = none :=
    sum_hours_missed_lookup_none att cc g s.student_id hna
  have hm0 : r.hours_missed = 0 := by
    rw [hhm, h0]
    rfl
  refine ⟨r, hrmem, hid, hm0, ?_⟩
  rw [hm0] at hpct
  rw [hpct]
  by_cases ht : 0 < t
  · rw [if_pos ht]
    have harg : (0 : ℚ) / t * 100 = 0 := by
      rw [zero_div, zero_mul]
    rw [harg, pyRound2_zero]
  · rw [if_neg ht]

theorem claim_C8_witness :
    ((compute_percentages [studentA, studentB] [eventA3] "CS101" "A" 40).length =
      ([studentA, studentB].filter
        (fun s => s.course_code == "CS101" && s.group == "A")).length) ∧
    (∃ r ∈ compute_percentages [studentA, studentB] [eventA3] "CS101" "A" 40,
      r.student_id = "S2" ∧ r.hours_missed = 0 ∧ r.percent = 0) ∧
    ((List.lookup "S2" (sum_hours_missed [eventA3] "CS101" "A")).isSome = true ↔
      ∃ e ∈ [eventA3], e.student_id = "S2" ∧ e.course_code = "CS101" ∧ e.group = "A") :=
  ⟨(claim_C8_enrollment_universe [studentA, studentB] [eventA3] "CS101" "A" 40).1,
   (claim_C8_enrollment_universe [studentA, studentB] [eventA3] "CS101" "A" 40).2.1 studentB
     (by simp) rfl rfl
     (by
       intro e he hk
       rw [List.mem_singleton] at he
       subst he
       exact absurd hk.1 (by decide)),
   (claim_C8_enrollment_universe [studentA, studentB] [eventA3] "CS101" "A" 40).2.2 "S2"⟩

/-- C4, amended: for positive total hours and nonnegative missed hours, the
    percent of a computed row equals hours_missed divided by total hours
    times 100, rounded to two decimal places with round-half-to-even tie
    breaking (the Python builtin round), not half-up; the result is
    nonnegative and is not clamped at 100. -/
theorem claim_C4_percent_rounding (students : List Student) (att : List AttendanceEvent)
    (cc g : String) (t : ℚ) (ht : 0 < t) (r : Row)
    (hr : r ∈ compute_percentages students att cc g t) (hm : 0 ≤ r.hours_missed) :
    r.percent = pyRound2 (r.hours_missed / t * 100) ∧ 0 ≤ r.percent := by
  have h := (compute_percentages_mem students att cc g t r hr).2
  rw [if_pos ht] at h
  refine ⟨h, ?_⟩
  rw [h]
  exact pyRound2_nonneg _ (mul_nonneg (div_nonneg hm ht.le) (by norm_num))

/-- C4 counterexample: one hour missed out of a 32-hour course gives the
    exact ratio 3.125 percent; the code rounds it to 3.12 (ties to even, as
    the Python builtin round does), while the half-up rounding the claim
    describes gives 3.13. -/
theorem claim_C4_cx :
    (compute_percentages [studentA] [eventA1] "CS101" "A" 32).map Row.percent =
      [312 / 100] ∧
    specRoundHalfUp2 ((1 : ℚ) / 32 * 100) = 313 / 100 ∧
    (312 / 100 : ℚ) ≠ 313 / 100 := by
  refine ⟨?_, ?_, by norm_num⟩
  · have h : pyRound2 ((32 : ℚ)⁻¹ * 100) = 312 / 100 := by
      rw [pyRound2_half ((32 : ℚ)⁻¹ * 100) 312 (by norm_num)]
      norm_num
    simp [compute_percentages, sum_hours_missed, updAdd, studentA, eventA1, List.lookup]
    exact h
  · unfold specRoundHalfUp2
    have harg : (1 : ℚ) / 32 * 100 * 100 + 1 / 2 = ((313 : ℤ) : ℚ) := by norm_num
    rw [harg, Int.floor_intCast]
    norm_num

theorem claim_C4_witness :
    (0 : ℚ) < 40 ∧
      ∃ r ∈ compute_percentages [studentA] [eventA41] "CS101" "A" 40,
        0 ≤ r.hours_missed ∧
          (r.percent = pyRound2 (r.hours_missed / 40 * 100) ∧ 0 ≤ r.percent) := by
  refine ⟨by norm_num, ?_⟩
  obtain ⟨r, hr, -, -, -, -, hhm, -⟩ :=
    compute_percentages_exists [studentA] [eventA41] "CS101" "A" 40 studentA (by simp) rfl rfl
  have hm : 0 ≤ r.hours_missed := by
    rw [hhm]
    simp [sum_hours_missed, updAdd, eventA41, studentA, List.lookup]
  exact ⟨r, hr, hm,
    claim_C4_percent_rounding [studentA] [eventA41] "CS101" "A" 40 (by norm_num) r hr hm⟩

/-- C3: in send_alerts a student is counted as processed exactly when at
    least one channel succeeds: sent_count equals the number of outcomes
    with a successful channel; a student all of whose channels fail has the
    alert record for their key left completely unchanged; and a targeted
    student with a successful channel has their record reconciled (percent
    overwritten, count incremented or record created, hit flags set from
    the current percent). -/
theorem claim_C3_processed_iff (env : NotifyEnv) (students : List Student)
    (att : List AttendanceEvent) (alerts : List AlertRec) (cc g : String) (t : ℚ)
    (sel : List String) :
    ((send_alerts env students att alerts cc g t sel).sent_count =
      ((send_alerts env students att alerts cc g t sel).outcomes.filter
        (fun o => o.ok_email || o.ok_sms)).length) ∧
    (∀ sid, (∀ r ∈ targets students att cc g t sel, r.student_id = sid →
        channelOk env cc r = false) →
      findAlert (send_alerts env students att alerts cc g t sel).alerts sid cc g =
        findAlert alerts sid cc g) ∧
    (((targets students att cc g t sel).map Row.student_id).Nodup →
      ∀ r ∈ targets students att cc g t sel, channelOk env cc r = true →
        findAlert (send_alerts env students att alerts cc g t sel).alerts r.student_id cc g =
          some (reconcile (findAlert alerts r.student_id cc g) r.student_id r.name cc g
            r.percent (decide ((7 : ℚ) ≤ r.percent)) (decide ((10 : ℚ) ≤ r.percent))
            (decide ((15 : ℚ) ≤ r.percent)))) := by
  refine ⟨?_, ?_, ?_⟩
  · exact processTargets_sent_count env cc g (targets students att cc g t sel) alerts
  · intro sid hfail
    exact processTargets_preserve env cc g sid cc g (targets students att cc g t sel) alerts
      (fun r hr hk => hfail r hr hk.1)
  · intro hnd r hr hok
    exact processTargets_processed env cc g (targets students att cc g t sel) alerts r
      hnd hr hok

theorem claim_C3_witness :
    findAlert (send_alerts envNone [studentA] [eventA3] [alertA7] "CS101" "A" 40
        ["S1"]).alerts "S1" "CS101" "A" =
      findAlert [alertA7] "S1" "CS101" "A" :=
  (claim_C3_processed_iff envNone [studentA] [eventA3] [alertA7] "CS101" "A" 40
    ["S1"]).2.1 "S1" (fun _ _ _ => rfl)

/-- C10: send_sms_stub always reports success, so with it as the SMS
    channel the all-channels-fail branch of send_alerts is unreachable:
    whatever the email outcomes, every targeted row is counted as processed
    (sent_count is the number of targeted rows, every outcome has ok_sms
    true) and upsert_alert is applied to every targeted row in order. -/
theorem claim_C10_sms_stub_always_ok (emailOk : String → String → String → Bool)
    (students : List Student) (att : List AttendanceEvent) (alerts : List AlertRec)
    (cc g : String) (t : ℚ) (sel : List String) :
    (∀ phone text, (send_sms_stub phone text).1 = true) ∧
    (send_alerts ⟨emailOk, fun p t2 => (send_sms_stub p t2).1⟩ students att alerts cc g t sel =
      ⟨(targets students att cc g t sel).foldl
          (fun al r =>
            upsert_alert al r.student_id r.name cc g r.percent
              (decide ((7 : ℚ) ≤ r.percent)) (decide ((10 : ℚ) ≤ r.percent))
              (decide ((15 : ℚ) ≤ r.percent))) alerts,
        (targets students att cc g t sel).length,
        (targets students att cc g t sel).map
          (fun r =>
            ⟨r.student_id,
             emailOkFor ⟨emailOk, fun p t2 => (send_sms_stub p t2).1⟩ cc r, true⟩)⟩) := by
  refine ⟨fun _ _ => rfl, ?_⟩
  have h := processTargets_all_sms_ok ⟨emailOk, fun p t2 => (send_sms_stub p t2).1⟩ cc g
    (fun _ _ => rfl) (targets students att cc g t sel) alerts
  simp only [send_alerts]
  rw [h]

/-- C1 counterexample: the key S1/CS101/A already has sent7 set, yet a
    send_alerts run that selects S1 (percent 7.5, tier 7 hit) invokes both
    channels again, succeeds, and counts the student as processed: the
    notification for the tier is sent a second time, so the sentN flags do
    not act as one-shot notification gates. -/
theorem claim_C1_cx :
    (findAlert [alertA7] "S1" "CS101" "A").map AlertRec.sent7 = some true ∧
    (send_alerts envAll [studentA] [eventA3] [alertA7] "CS101" "A" 40 ["S1"]).outcomes =
      [⟨"S1", true, true⟩] ∧
    (send_alerts envAll [studentA] [eventA3] [alertA7] "CS101" "A" 40 ["S1"]).sent_count =
      1 := by
  refine ⟨rfl, ?_, ?_⟩
  · simp [send_alerts, targets, processTargets, compute_percentages, sum_hours_missed,
      updAdd, studentA, eventA3, List.lookup, emailOkFor, smsOkFor, envAll]
  · simp [send_alerts, targets, processTargets, compute_percentages, sum_hours_missed,
      updAdd, studentA, eventA3, List.lookup, emailOkFor, smsOkFor, envAll]

/-- C1, amended: the sentN flags never gate notification sending: a
    send_alerts run produces one notification attempt (outcome) per
    targeted row whatever the stored flags, so a key whose flag is already
    set is notified again whenever it is selected. What is one-shot is the
    flag state itself: a key whose sentN flag is set still has it set after
    the run, never reset. -/
theorem claim_C1_resend_and_flag_ratchet (env : NotifyEnv) (students : List Student)
    (att : List AttendanceEvent) (alerts : List AlertRec) (cc g : String) (t : ℚ)
    (sel : List String) :
    ((send_alerts env students att alerts cc g t sel).outcomes.map Outcome.student_id =
      (targets students att cc g t sel).map Row.student_id) ∧
    (∀ sid0 cc0 g0 a, findAlert alerts sid0 cc0 g0 = some a →
      ∃ a', findAlert (send_alerts env students att alerts cc g t sel).alerts sid0 cc0 g0 =
          some a' ∧
        (a.sent7 = true → a'.sent7 = true) ∧ (a.sent10 = true → a'.sent10 = true) ∧
        (a.sent15 = true → a'.sent15 = true)) := by
  refine ⟨processTargets_outcome_ids env cc g (targets students att cc g t sel) alerts, ?_⟩
  intro sid0 cc0 g0 a ha
  exact processTargets_flags_mono env cc g (targets students att cc g t sel) alerts
    sid0 cc0 g0 a ha

theorem claim_C1_witness :
    ∃ a', findAlert (send_alerts envAll [studentA] [eventA3] [alertA7] "CS101" "A" 40
        ["S1"]).alerts "S1" "CS101" "A" = some a' ∧ a'.sent7 = true := by
  obtain ⟨a', h1, h2, -, -⟩ :=
    (claim_C1_resend_and_flag_ratchet envAll [studentA] [eventA3] [alertA7] "CS101" "A" 40
      ["S1"]).2 "S1" "CS101" "A" alertA7 rfl
  exact ⟨a', h1, h2 rfl⟩

/-- C2 counterexample: S1 has no absence events (percent 0, below every
    tier) and no prior alert record, yet a send_alerts run that selects S1
    and whose SMS channel (the stub) succeeds creates an AlertState record
    for the key, with count 1 and no flags set. -/
theorem claim_C2_cx :
    findAlert [] "S1" "CS101" "A" = none ∧
    (send_alerts envStub [studentA] [] [] "CS101" "A" 40 ["S1"]).alerts =
      [⟨"S1", "Alice", "CS101", "A", 0, 1, false, false, false⟩] := by
  refine ⟨rfl, ?_⟩
  have d7 : decide ((7 : ℚ) ≤ 0) = false := decide_eq_false (by norm_num)
  have d10 : decide ((10 : ℚ) ≤ 0) = false := decide_eq_false (by norm_num)
  have d15 : decide ((15 : ℚ) ≤ 0) = false := decide_eq_false (by norm_num)
  have h40 : (0 : ℚ) < 40 := by norm_num
  simp [send_alerts, targets, processTargets, compute_percentages, sum_hours_missed,
    updAdd, studentA, List.lookup, emailOkFor, smsOkFor, envStub, send_sms_stub,
    upsert_alert, pyRound2_zero, d7, d10, d15, h40]

/-- C2, amended: a student with no prior record and percent below 7 gets no
    AlertState record from a run that does not select them; but a run that
    does select them and succeeds on a channel does create a record for the
    key, with count 1, the current percent, and all sentN flags unset. -/
theorem claim_C2_nonalerting (env : NotifyEnv) (students : List Student)
    (att : List AttendanceEvent) (alerts : List AlertRec) (cc g : String) (t : ℚ)
    (sel : List String) (sid : String) :
    (sel.contains sid = false →
      findAlert (send_alerts env students att alerts cc g t sel).alerts sid cc g =
        findAlert alerts sid cc g) ∧
    (((targets students att cc g t sel).map Row.student_id).Nodup →
      ∀ r ∈ targets students att cc g t sel, r.student_id = sid → r.percent < 7 →
        findAlert alerts sid cc g = none → channelOk env cc r = true →
        findAlert (send_alerts env students att alerts cc g t sel).alerts sid cc g =
          some ⟨sid, r.name, cc, g, r.percent, 1, false, false, false⟩) := by
  constructor
  · intro hsel
    refine processTargets_preserve env cc g sid cc g (targets students att cc g t sel)
      alerts ?_
    intro r hr hk
    exfalso
    have hmem := (List.mem_filter.mp hr).2
    rw [hk.1] at hmem
    rw [hsel] at hmem
    exact Bool.false_ne_true hmem
  · intro hnd r hr hid hlt hnone hok
    have h := processTargets_processed env cc g (targets students att cc g t sel) alerts r
      hnd hr hok
    have d7 : decide ((7 : ℚ) ≤ r.percent) = false := decide_eq_false (by linarith)
    have d10 : decide ((10 : ℚ) ≤ r.percent) = false := decide_eq_false (by linarith)
    have d15 : decide ((15 : ℚ) ≤ r.percent) = false := decide_eq_false (by linarith)
    rw [hid, hnone, d7, d10, d15] at h
    exact h

theorem claim_C2_witness :
    (findAlert (send_alerts envStub [studentA] [] [] "CS101" "A" 40 []).alerts
        "S1" "CS101" "A" = findAlert [] "S1" "CS101" "A") ∧
    findAlert (send_alerts envStub [studentA] [] [] "CS101" "A" 40 ["S1"]).alerts
        "S1" "CS101" "A" =
      some ⟨"S1", "Alice", "CS101", "A", 0, 1, false, false, false⟩ := by
  have n7 : ¬((7 : ℚ) ≤ 0) := by norm_num
  have n10 : ¬((10 : ℚ) ≤ 0) := by norm_num
  have n15 : ¬((15 : ℚ) ≤ 0) := by norm_num
  have h40 : (0 : ℚ) < 40 := by norm_num
  have htargets : targets [studentA] [] "CS101" "A" 40 ["S1"] =
      [⟨"S1", "Alice", 0, 0, "-", "0111", "alice@example.com"⟩] := by
    simp [targets, compute_percentages, sum_hours_missed, studentA, List.lookup,
      tier_labels, pyRound2_zero, n7, n10, n15, h40]
  constructor
  · exact (claim_C2_nonalerting envStub [studentA] [] [] "CS101" "A" 40 [] "S1").1 rfl
  · have h := (claim_C2_nonalerting envStub [studentA] [] [] "CS101" "A" 40 ["S1"] "S1").2
    rw [htargets] at h
    exact h (by simp) _ (List.mem_singleton.mpr rfl) rfl (by norm_num) rfl rfl
